import Mathlib

/-!
Verification of the ADI agent-loop plugin (src/src/lib.rs) against its
natural-language specification.

The module under verification exposes two MCP-style services (tools and
resources) across a plugin ABI boundary.  Pure Rust functions are embedded
as Lean functions; the host registry and the serde_json codec are external
crates, so they are modelled abstractly: the codec as a parse function
parameter, the registry as the outcomes of the two register_svc calls.
-/

namespace AdiAgentLoop

/-- Modelled from the spec: the EncodedValue structured value
(object/array/string/number/bool/null, recursively).  This stands for
serde_json::Value, which is an external crate, not code of this repository.
Numbers are modelled as integers; the literals in this module use only
integer numbers. -/
inductive Json where
  | null
  | bool (b : Bool)
  | num (n : Int)
  | str (s : String)
  | arr (elems : List Json)
  | obj (fields : List (String × Json))

/-- serde_json Value::get(key): field lookup on an object, None otherwise. -/
def Json.get : Json → String → Option Json
  | .obj fields, key => fields.lookup key
  | _, _ => none

/-- serde_json Value::as_str: Some for a string value, None otherwise. -/
def Json.asStr : Json → Option String
  | .str s => some s
  | _ => none

/-- One character of the JSON string escaping performed by the serializer
(the control characters that do not occur in this module are omitted). -/
def escapeChar (c : Char) : String :=
  if c = '"' then "\\\""
  else if c = '\\' then "\\\\"
  else if c = '\n' then "\\n"
  else if c = '\r' then "\\r"
  else if c = '\t' then "\\t"
  else String.singleton c

/-- Render a JSON string literal with quotes and escaping. -/
def renderStr (s : String) : String :=
  "\"" ++ String.join (s.toList.map escapeChar) ++ "\""

mutual
/-- Modelled from the spec: the compact text serialization of an
EncodedValue (serde_json::to_string, an external crate). -/
def Json.render : Json → String
  | .null => "null"
  | .bool b => if b then "true" else "false"
  | .num n => toString n
  | .str s => renderStr s
  | .arr elems => "[" ++ renderElems elems ++ "]"
  | .obj fields => "\x7b" ++ renderFields fields ++ "\x7d"

/-- Comma-separated rendering of array elements. -/
def renderElems : List Json → String
  | [] => ""
  | [v] => Json.render v
  | v :: rest => Json.render v ++ "," ++ renderElems rest

/-- Comma-separated rendering of object fields as key:value. -/
def renderFields : List (String × Json) → String
  | [] => ""
  | [(k, v)] => renderStr k ++ ":" ++ Json.render v
  | (k, v) :: rest => renderStr k ++ ":" ++ Json.render v ++ "," ++ renderFields rest
end

/-- The closed error taxonomy of ServiceError.kind from the spec (section 3). -/
inductive ErrorKind where
  | methodNotFound
  | invocationError
  | versionMismatch
  | notRegistered
  | duplicateRegistration
  | internalError
deriving DecidableEq

/-- Modelled from the spec: ServiceError is a kind plus a message
(lib_plugin_abi::ServiceError, an external crate). -/
structure ServiceError where
  kind : ErrorKind
  message : String
deriving DecidableEq

/-- ServiceError::method_not_found, carrying the requested name. -/
def ServiceError.method_not_found (m : String) : ServiceError :=
  ⟨.methodNotFound, m⟩

/-- ServiceError::invocation_error, carrying the diagnostic message. -/
def ServiceError.invocation_error (m : String) : ServiceError :=
  ⟨.invocationError, m⟩

/-- Modelled from the spec: a MethodDescriptor is a name with an optional
description (lib_plugin_abi::ServiceMethod, an external crate). -/
structure ServiceMethod where
  name : String
  description : Option String
deriving DecidableEq

/-- ServiceMethod::new. -/
def ServiceMethod.new (n : String) : ServiceMethod := ⟨n, none⟩

/-- ServiceMethod::with_description. -/
def ServiceMethod.with_description (m : ServiceMethod) (d : String) : ServiceMethod :=
  ⟨m.name, some d⟩

/-- The error kind of an invocation result, if it is an error. -/
def errKind : Except ServiceError String → Option ErrorKind
  | .error e => some e.kind
  | .ok _ => none

/-- The fixed tool list built by list_tools_json in src/src/lib.rs
(the json literal, transcribed field by field). -/
def list_tools_value : Json :=
  Json.arr [
    Json.obj [
      ("name", Json.str "agent_run"),
      ("description", Json.str "Run an agent with a given task"),
      ("inputSchema", Json.obj [
        ("type", Json.str "object"),
        ("properties", Json.obj [
          ("task", Json.obj [
            ("type", Json.str "string"),
            ("description", Json.str "Task description for the agent")]),
          ("max_steps", Json.obj [
            ("type", Json.str "integer"),
            ("default", Json.num 10),
            ("description", Json.str "Maximum number of steps")])]),
        ("required", Json.arr [Json.str "task"])])],
    Json.obj [
      ("name", Json.str "agent_sessions"),
      ("description", Json.str "List agent sessions"),
      ("inputSchema", Json.obj [
        ("type", Json.str "object"),
        ("properties", Json.obj [
          ("limit", Json.obj [
            ("type", Json.str "integer"),
            ("default", Json.num 10)])])])],
    Json.obj [
      ("name", Json.str "agent_session_get"),
      ("description", Json.str "Get details of a specific session"),
      ("inputSchema", Json.obj [
        ("type", Json.str "object"),
        ("properties", Json.obj [
          ("id", Json.obj [
            ("type", Json.str "string"),
            ("description", Json.str "Session ID")])]),
        ("required", Json.arr [Json.str "id"])])]]

/-- list_tools_json: serialize the fixed tool list.  The source falls back
to the literal string for the empty list if serialization fails; the
serialization of a concrete value cannot fail, so the fallback is dead. -/
def list_tools_json : String := list_tools_value.render

/-- tool_result: wrap a text payload in the MCP content envelope.  The
unreachable serialization fallback is omitted as in list_tools_json. -/
def tool_result (text : String) : String :=
  (Json.obj [
    ("content", Json.arr [
      Json.obj [
        ("type", Json.str "text"),
        ("text", Json.str text)]])]).render

/-- call_tool from src/src/lib.rs: dispatch on the tool name; the Rust
match on a string slice is embedded as a chain of equality tests. -/
def call_tool (tool_name : String) (args : Json) : Except ServiceError String :=
  if tool_name = "agent_run" then
    match (args.get "task").bind Json.asStr with
    | none => .error (ServiceError.invocation_error "Missing task")
    | some task =>
        .ok (tool_result ("Agent would execute task: " ++ task ++
          ". Full implementation requires LLM configuration."))
  else if tool_name = "agent_sessions" then
    .ok (tool_result "[]")
  else if tool_name = "agent_session_get" then
    match (args.get "id").bind Json.asStr with
    | none => .error (ServiceError.invocation_error "Missing id")
    | some id =>
        .error (ServiceError.invocation_error ("Session " ++ id ++ " not found"))
  else
    .error (ServiceError.invocation_error ("Unknown tool: " ++ tool_name))

/-- mcp_tools_invoke from src/src/lib.rs.  The serde_json::from_str codec
is an external crate, so it is passed in as the parse parameter; every
theorem below quantifies over it.  The opaque handle pointer carries no
information used by the body and is dropped. -/
def mcp_tools_invoke (parse : String → Except String Json)
    (method : String) (args : String) : Except ServiceError String :=
  if method = "list_tools" then .ok list_tools_json
  else if method = "call_tool" then
    match parse args with
    | .error e => .error (ServiceError.invocation_error ("Invalid args: " ++ e))
    | .ok params =>
        let tool_name := ((params.get "name").bind Json.asStr).getD ""
        let tool_args := (params.get "args").getD (Json.obj [])
        call_tool tool_name tool_args
  else .error (ServiceError.method_not_found method)

/-- mcp_tools_list_methods from src/src/lib.rs. -/
def mcp_tools_list_methods : List ServiceMethod :=
  [(ServiceMethod.new "list_tools").with_description "List all available tools",
   (ServiceMethod.new "call_tool").with_description "Call a tool by name with arguments"]

/-- The fixed resource list built by list_resources_json in src/src/lib.rs. -/
def list_resources_value : Json :=
  Json.arr [
    Json.obj [
      ("uri", Json.str "agent://sessions"),
      ("name", Json.str "Agent Sessions"),
      ("description", Json.str "List of all agent sessions"),
      ("mimeType", Json.str "application/json")]]

/-- list_resources_json: serialize the fixed resource list (the dead
serialization fallback is omitted as in list_tools_json). -/
def list_resources_json : String := list_resources_value.render

/-- mcp_resources_invoke from src/src/lib.rs.  The args parameter is bound
but unused in the source (named with an underscore there). -/
def mcp_resources_invoke (method : String) (_args : String) :
    Except ServiceError String :=
  if method = "list_resources" then .ok list_resources_json
  else if method = "read_resource" then
    .error (ServiceError.invocation_error "Not implemented")
  else .error (ServiceError.method_not_found method)

/-- mcp_resources_list_methods from src/src/lib.rs. -/
def mcp_resources_list_methods : List ServiceMethod :=
  [(ServiceMethod.new "list_resources").with_description "List all available resources",
   (ServiceMethod.new "read_resource").with_description "Read a resource by URI"]

/-- Modelled from the spec: the service identifier constant
SERVICE_MCP_TOOLS from the external ABI crate; a globally unique
identifier string whose exact value the repository does not define. -/
def SERVICE_MCP_TOOLS : String := "mcp.tools"

/-- Modelled from the spec: the service identifier constant
SERVICE_MCP_RESOURCES from the external ABI crate. -/
def SERVICE_MCP_RESOURCES : String := "mcp.resources"

/-- Modelled from the spec: the outcomes the host registry gives to the two
register_svc calls made by plugin_init (the registry is owned by the host
and is external to this repository).  none means Ok, some code means
Err(code). -/
structure HostRegisterOutcomes where
  tools : Option Int
  resources : Option Int

/-- The observable trace of a plugin_init run: the returned status, the
host.error diagnostics emitted, the host.info messages emitted, and the
services that were successfully registered. -/
structure InitTrace where
  status : Int
  errorLogs : List String
  infoLogs : List String
  registered : List String
deriving DecidableEq

/-- plugin_init from src/src/lib.rs, as a function of the host registry
outcomes: register the tools service, on failure log and return the code;
then register the resources service, on failure log and return the code;
then log the info message and return 0.  The tokio-runtime setup touches
no state visible to the claims and is not modelled. -/
def plugin_init (h : HostRegisterOutcomes) : InitTrace :=
  match h.tools with
  | some code =>
      ⟨code, ["Failed to register MCP tools service: " ++ toString code], [], []⟩
  | none =>
      match h.resources with
      | some code =>
          ⟨code, ["Failed to register MCP resources service: " ++ toString code],
            [], [SERVICE_MCP_TOOLS]⟩
      | none =>
          ⟨0, [], ["ADI Agent Loop plugin initialized"],
            [SERVICE_MCP_TOOLS, SERVICE_MCP_RESOURCES]⟩

/-- plugin_cleanup from src/src/lib.rs, as a transformer on the set of
currently registered services: the function body in the source is empty,
so the registered set is returned unchanged and no unregistration call is
made. -/
def plugin_cleanup (registered : List String) : List String := registered

/-- Every error call_tool produces carries kind InvocationError: each error
branch of call_tool goes through ServiceError::invocation_error. -/
theorem call_tool_error_kind (n : String) (a : Json) (e : ServiceError)
    (h : call_tool n a = .error e) : e.kind = .invocationError := by
  unfold call_tool at h
  split_ifs at h
  · split at h
    · injection h with h2
      rw [← h2]
      rfl
    · exact Except.noConfusion h
  · split at h
    · injection h with h2
      rw [← h2]
      rfl
    · injection h with h2
      rw [← h2]
      rfl
  · injection h with h2
    rw [← h2]
    rfl

/-- C1: for every method name other than the ones each service claims to
support, the invoke entry point returns MethodNotFound carrying the
requested name, for every args payload and every codec: mcp_tools_invoke
for names other than list_tools and call_tool, mcp_resources_invoke for
names other than list_resources and read_resource. -/
theorem unknown_method_yields_method_not_found
    (parse : String → Except String Json) (method args : String) :
    (method ≠ "list_tools" → method ≠ "call_tool" →
      mcp_tools_invoke parse method args =
        .error (ServiceError.method_not_found method)) ∧
    (method ≠ "list_resources" → method ≠ "read_resource" →
      mcp_resources_invoke method args =
        .error (ServiceError.method_not_found method)) ∧
    (ServiceError.method_not_found method).kind = .methodNotFound ∧
    (ServiceError.method_not_found method).message = method := by
  refine ⟨?_, ?_, rfl, rfl⟩ <;> intro h1 h2 <;>
    simp [mcp_tools_invoke, mcp_resources_invoke, h1, h2]

/-- Witness for C1 at the concrete method does_not_exist. -/
theorem unknown_method_yields_method_not_found_witness :
    mcp_tools_invoke (fun _ => Except.error "") "does_not_exist" "\x7b\x7d" =
      Except.error (ServiceError.method_not_found "does_not_exist") ∧
    mcp_resources_invoke "does_not_exist" "\x7b\x7d" =
      Except.error (ServiceError.method_not_found "does_not_exist") :=
  ⟨(unknown_method_yields_method_not_found (fun _ => Except.error "")
      "does_not_exist" "\x7b\x7d").1 (by decide) (by decide),
   (unknown_method_yields_method_not_found (fun _ => Except.error "")
      "does_not_exist" "\x7b\x7d").2.1 (by decide) (by decide)⟩

/-- C2: every method name returned by a list_methods function is
dispatchable: invoking it never yields MethodNotFound, for every args
payload and every codec. -/
theorem listed_methods_are_dispatchable
    (parse : String → Except String Json) (args : String) :
    mcp_tools_list_methods.map ServiceMethod.name = ["list_tools", "call_tool"] ∧
    mcp_resources_list_methods.map ServiceMethod.name =
      ["list_resources", "read_resource"] ∧
    errKind (mcp_tools_invoke parse "list_tools" args) ≠ some .methodNotFound ∧
    errKind (mcp_tools_invoke parse "call_tool" args) ≠ some .methodNotFound ∧
    errKind (mcp_resources_invoke "list_resources" args) ≠ some .methodNotFound ∧
    errKind (mcp_resources_invoke "read_resource" args) ≠ some .methodNotFound := by
  refine ⟨rfl, rfl, by simp [mcp_tools_invoke, errKind], ?_,
    by simp [mcp_resources_invoke, errKind],
    by simp [mcp_resources_invoke, errKind, ServiceError.invocation_error]⟩
  cases hp : parse args with
  | error e =>
      simp [mcp_tools_invoke, hp, errKind, ServiceError.invocation_error]
  | ok params =>
      simp only [mcp_tools_invoke, hp]
      cases hc : call_tool (((params.get "name").bind Json.asStr).getD "")
          ((params.get "args").getD (Json.obj [])) with
      | ok s => simp [hc, errKind]
      | error e =>
          have hk := call_tool_error_kind _ _ _ hc
          simp [hc, errKind, hk]

/-- Witness for C2 at a concrete codec and payload. -/
theorem listed_methods_are_dispatchable_witness :
    errKind (mcp_tools_invoke (fun _ => Except.ok (Json.obj [])) "call_tool"
      "\x7b\x7d") ≠ some .methodNotFound ∧
    errKind (mcp_resources_invoke "read_resource" "\x7b\x7d") ≠
      some .methodNotFound :=
  ⟨(listed_methods_are_dispatchable (fun _ => Except.ok (Json.obj []))
      "\x7b\x7d").2.2.2.1,
   (listed_methods_are_dispatchable (fun _ => Except.ok (Json.obj []))
      "\x7b\x7d").2.2.2.2.2⟩

/-- C3: plugin_init returns 0 exactly when both registrations succeed;
when a register_svc call fails with code c, plugin_init emits an error
diagnostic and returns c, which is nonzero whenever the registry reports
failures with nonzero codes (as the spec requires of the host). -/
theorem plugin_init_status (h : HostRegisterOutcomes)
    (ht : ∀ c, h.tools = some c → c ≠ 0)
    (hr : ∀ c, h.resources = some c → c ≠ 0) :
    ((plugin_init h).status = 0 ↔ h.tools = none ∧ h.resources = none) ∧
    (∀ c, h.tools = some c →
      (plugin_init h).status = c ∧ (plugin_init h).errorLogs ≠ []) ∧
    (∀ c, h.tools = none → h.resources = some c →
      (plugin_init h).status = c ∧ (plugin_init h).errorLogs ≠ []) := by
  obtain ⟨t, r⟩ := h
  rcases t with _ | c
  · rcases r with _ | d
    · refine ⟨by simp [plugin_init], ?_, ?_⟩
      · intro c hc
        simp at hc
      · intro c h1 h2
        simp at h2
    · have hd : d ≠ 0 := hr d rfl
      refine ⟨by simp [plugin_init, hd], ?_, ?_⟩
      · intro c hc
        simp at hc
      · intro c h1 h2
        simp at h2
        subst h2
        exact ⟨rfl, by simp [plugin_init]⟩
  · have hc : c ≠ 0 := ht c rfl
    refine ⟨by simp [plugin_init, hc], ?_, ?_⟩
    · intro d hd
      simp at hd
      subst hd
      exact ⟨rfl, by simp [plugin_init]⟩
    · intro d h1 h2
      simp at h1

/-- Witness for C3 at a failing tools registration with code 5 and at a
fully successful registration. -/
theorem plugin_init_status_witness :
    ((plugin_init ⟨some 5, none⟩).status = 5 ∧
      (plugin_init ⟨some 5, none⟩).errorLogs ≠ []) ∧
    (plugin_init ⟨none, none⟩).status = 0 := by
  constructor
  · exact (plugin_init_status ⟨some 5, none⟩
      (by intro c hc; simp at hc; omega)
      (by intro c hc; simp at hc)).2.1 5 rfl
  · exact ((plugin_init_status ⟨none, none⟩
      (by intro c hc; simp at hc)
      (by intro c hc; simp at hc)).1).2 ⟨rfl, rfl⟩

/-- C4 evaluation: plugin_cleanup has an empty body, so after a successful
init both registered services are still registered; the cleanup phase
unregisters nothing, contrary to the lifecycle contract. -/
theorem cleanup_leaves_services_registered :
    plugin_cleanup (plugin_init ⟨none, none⟩).registered =
      [SERVICE_MCP_TOOLS, SERVICE_MCP_RESOURCES] ∧
    SERVICE_MCP_TOOLS ∈ plugin_cleanup (plugin_init ⟨none, none⟩).registered ∧
    SERVICE_MCP_RESOURCES ∈ plugin_cleanup (plugin_init ⟨none, none⟩).registered :=
  ⟨rfl, by simp [plugin_cleanup, plugin_init], by simp [plugin_cleanup, plugin_init]⟩

/-- C5: for every args payload the codec rejects, invoking call_tool on
the tools service fails with InvocationError carrying the decode
diagnostic. -/
theorem call_tool_malformed_args
    (parse : String → Except String Json) (args e : String)
    (h : parse args = .error e) :
    mcp_tools_invoke parse "call_tool" args =
      .error (ServiceError.invocation_error ("Invalid args: " ++ e)) ∧
    (ServiceError.invocation_error ("Invalid args: " ++ e)).kind =
      .invocationError := by
  refine ⟨?_, rfl⟩
  simp [mcp_tools_invoke, h]

/-- Witness for C5 with a codec that rejects the input with a concrete
diagnostic. -/
theorem call_tool_malformed_args_witness :
    mcp_tools_invoke (fun _ => Except.error "expected value at line 1")
      "call_tool" "not json" =
      Except.error (ServiceError.invocation_error
        "Invalid args: expected value at line 1") :=
  (call_tool_malformed_args (fun _ => Except.error "expected value at line 1")
    "not json" "expected value at line 1" rfl).1

/-- C6: the empty method name yields MethodNotFound carrying the empty
string on both services, for every args payload and codec. -/
theorem empty_method_yields_method_not_found
    (parse : String → Except String Json) (args : String) :
    mcp_tools_invoke parse "" args = .error (ServiceError.method_not_found "") ∧
    mcp_resources_invoke "" args = .error (ServiceError.method_not_found "") :=
  ⟨rfl, rfl⟩

/-- Witness for C6 at a concrete codec and payload. -/
theorem empty_method_yields_method_not_found_witness :
    mcp_tools_invoke (fun _ => Except.error "") "" "payload" =
      Except.error (ServiceError.method_not_found "") ∧
    mcp_resources_invoke "" "payload" =
      Except.error (ServiceError.method_not_found "") :=
  empty_method_yields_method_not_found (fun _ => Except.error "") "payload"

/-- C7: both list_methods functions are constants of the embedding (pure:
the Rust bodies read no state), returning exactly the two descriptors in
order, each with its description, with pairwise-distinct names. -/
theorem list_methods_fixed :
    mcp_tools_list_methods =
      [⟨"list_tools", some "List all available tools"⟩,
       ⟨"call_tool", some "Call a tool by name with arguments"⟩] ∧
    mcp_resources_list_methods =
      [⟨"list_resources", some "List all available resources"⟩,
       ⟨"read_resource", some "Read a resource by URI"⟩] ∧
    (mcp_tools_list_methods.map ServiceMethod.name).Nodup ∧
    (mcp_resources_list_methods.map ServiceMethod.name).Nodup := by
  refine ⟨rfl, rfl, ?_, ?_⟩ <;> decide

/-- C8: for every args payload the codec accepts whose name field is a
string other than the three known tools, call_tool dispatch fails with
InvocationError and the Unknown tool message, never MethodNotFound. -/
theorem call_tool_unknown_tool
    (parse : String → Except String Json) (args : String) (v : Json) (s : String)
    (hv : parse args = .ok v)
    (hn : (v.get "name").bind Json.asStr = some s)
    (h1 : s ≠ "agent_run") (h2 : s ≠ "agent_sessions")
    (h3 : s ≠ "agent_session_get") :
    mcp_tools_invoke parse "call_tool" args =
      .error (ServiceError.invocation_error ("Unknown tool: " ++ s)) ∧
    (ServiceError.invocation_error ("Unknown tool: " ++ s)).kind =
      .invocationError := by
  refine ⟨?_, rfl⟩
  simp [mcp_tools_invoke, hv, hn, call_tool, h1, h2, h3]

/-- Witness for C8 at the concrete tool name bogus. -/
theorem call_tool_unknown_tool_witness :
    mcp_tools_invoke (fun _ => Except.ok (Json.obj [("name", Json.str "bogus")]))
      "call_tool" "payload" =
      Except.error (ServiceError.invocation_error "Unknown tool: bogus") :=
  (call_tool_unknown_tool
    (fun _ => Except.ok (Json.obj [("name", Json.str "bogus")]))
    "payload" (Json.obj [("name", Json.str "bogus")]) "bogus"
    rfl rfl (by decide) (by decide) (by decide)).1

/-- C9: on an accepted args payload, a missing or non-string name field
defaults the tool name to the empty string, so the call fails with the
Unknown tool error for the empty name; a missing args field defaults the
tool arguments to the empty object. -/
theorem call_tool_missing_fields_default
    (parse : String → Except String Json) (args : String) (v : Json)
    (hv : parse args = .ok v) :
    ((v.get "name").bind Json.asStr = none →
      mcp_tools_invoke parse "call_tool" args =
        .error (ServiceError.invocation_error "Unknown tool: ")) ∧
    (v.get "args" = none →
      mcp_tools_invoke parse "call_tool" args =
        call_tool (((v.get "name").bind Json.asStr).getD "") (Json.obj [])) := by
  constructor
  · intro hn
    simp [mcp_tools_invoke, hv, hn, call_tool]
  · intro ha
    simp [mcp_tools_invoke, hv, ha]

/-- Witness for C9 at the empty object payload, where both the name and
the args fields are absent. -/
theorem call_tool_missing_fields_default_witness :
    mcp_tools_invoke (fun _ => Except.ok (Json.obj [])) "call_tool" "\x7b\x7d" =
      Except.error (ServiceError.invocation_error "Unknown tool: ") ∧
    mcp_tools_invoke (fun _ => Except.ok (Json.obj [])) "call_tool" "\x7b\x7d" =
      call_tool "" (Json.obj []) :=
  ⟨(call_tool_missing_fields_default (fun _ => Except.ok (Json.obj []))
      "\x7b\x7d" (Json.obj []) rfl).1 rfl,
   (call_tool_missing_fields_default (fun _ => Except.ok (Json.obj []))
      "\x7b\x7d" (Json.obj []) rfl).2 rfl⟩

/-- C10: the resources invoke result depends only on the method name, not
on the args payload; list_resources always yields the fixed resource list,
read_resource always yields InvocationError Not implemented, and any other
method yields MethodNotFound carrying the name. -/
theorem resources_invoke_args_independent (m a1 a2 : String) :
    mcp_resources_invoke m a1 = mcp_resources_invoke m a2 ∧
    mcp_resources_invoke "list_resources" a1 = .ok list_resources_json ∧
    mcp_resources_invoke "read_resource" a1 =
      .error (ServiceError.invocation_error "Not implemented") ∧
    (m ≠ "list_resources" → m ≠ "read_resource" →
      mcp_resources_invoke m a1 = .error (ServiceError.method_not_found m)) := by
  refine ⟨rfl, rfl, rfl, ?_⟩
  intro h1 h2
  simp [mcp_resources_invoke, h1, h2]

/-- Witness for C10 at a concrete unknown method with two distinct args
payloads. -/
theorem resources_invoke_args_independent_witness :
    mcp_resources_invoke "x" "a" = mcp_resources_invoke "x" "b" ∧
    mcp_resources_invoke "x" "a" = Except.error (ServiceError.method_not_found "x") :=
  ⟨(resources_invoke_args_independent "x" "a" "b").1,
   (resources_invoke_args_independent "x" "a" "b").2.2.2 (by decide) (by decide)⟩

end AdiAgentLoop
